import Mathlib

/-!
Shallow embedding of the search-hit normalizer, local hit filter and
agent-response extractor of `streamlit_app.py`, together with theorems
settling the specification claims about them.

JSON-like Python values are embedded as the inductive `JVal`; Python's
`None` is `JVal.null`, numbers are modelled opaquely as integers (no claim
computes with them).  Python truthiness, `dict.get`, and the `a or b`
idiom are embedded by `truthy`, `pyGet` and `pyOr`.  Code that can raise
is embedded in `Except String`, an `error` value standing for a raised
Python exception carrying its message (messages of modelled library
exceptions are approximate; no theorem depends on their exact text).
-/

/-- A JSON-like Python value (`None` / `bool` / number / `str` / `list` /
`dict`).  Numbers are modelled as integers; the claims never compute with
numeric values. -/
inductive JVal where
  | null : JVal
  | bool : Bool → JVal
  | num : Int → JVal
  | str : String → JVal
  | arr : List JVal → JVal
  | obj : List (String × JVal) → JVal

/-- First value bound to a key in an association list (Python `dict`
lookup; real dicts have unique keys, so first-match is faithful). -/
def lookupKV : List (String × JVal) → String → Option JVal
  | [], _ => none
  | (k, v) :: rest, key => if k = key then some v else lookupKV rest key

/-- Python truthiness of a `JVal` (`bool(v)`). -/
def truthy : JVal → Bool
  | .null => false
  | .bool b => b
  | .num n => n != 0
  | .str s => s != ""
  | .arr xs => !xs.isEmpty
  | .obj kvs => !kvs.isEmpty

/-- Python `d.get(k)` on a mapping, with `None` (`JVal.null`) as the
default for an absent key; `JVal.null` on a non-mapping (the code only
calls it on values checked or known to be mappings). -/
def pyGet (v : JVal) (k : String) : JVal :=
  match v with
  | .obj kvs => (lookupKV kvs k).getD .null
  | _ => .null

/-- Python `a or b`: `a` when truthy, else `b`. -/
def pyOr (a b : JVal) : JVal :=
  if truthy a then a else b

/-- Whether a value is a Python `dict` (`isinstance(v, dict)`). -/
def isObj : JVal → Bool
  | .obj _ => true
  | _ => false

/-- Whether a value is a Python `str`. -/
def isStr : JVal → Bool
  | .str _ => true
  | _ => false

/-- Key list of a mapping value (empty on non-mappings). -/
def objKeys : JVal → List String
  | .obj kvs => kvs.map (fun kv => kv.1)
  | _ => []

/-- The test `isinstance(m, dict) and m.get("content")` applied to a
candidate message object. -/
def contentHit (m : JVal) : Bool := isObj m && truthy (pyGet m "content")

/-- Whether an `Except`-embedded computation succeeded (a raised Python
exception is the `error` case). -/
def isOkE : Except String (List JVal) → Bool
  | .ok _ => true
  | .error _ => false

/-- Minimal JSON string escaping (backslash, quote, and common control
characters), modelling `json.dumps` escaping for the strings exercised
here. -/
def jsonEscape (s : String) : String :=
  s.foldl (fun acc c =>
    acc ++ (if c = '\\' then "\\\\"
            else if c = '\x22' then "\\\x22"
            else if c = '\n' then "\\n"
            else if c = '\t' then "\\t"
            else if c = '\r' then "\\r"
            else String.singleton c)) ""

/-- A JSON-quoted string literal. -/
def jquote (s : String) : String := "\x22" ++ jsonEscape s ++ "\x22"

/-- `n` spaces of indentation. -/
def spaces (n : Nat) : String := String.mk (List.replicate n ' ')

mutual

/-- Size of a `JVal`, used as recursion fuel for the `json.dumps`
model. -/
def jsize : JVal → Nat
  | .null => 1
  | .bool _ => 1
  | .num _ => 1
  | .str _ => 1
  | .arr xs => 1 + jsizeL xs
  | .obj kvs => 1 + jsizeKV kvs

/-- Size of a list of values. -/
def jsizeL : List JVal → Nat
  | [] => 0
  | x :: xs => 1 + jsize x + jsizeL xs

/-- Size of a key-value list. -/
def jsizeKV : List (String × JVal) → Nat
  | [] => 0
  | (_, v) :: kvs => 1 + jsize v + jsizeKV kvs

end

/-- Fuel-driven body of the `json.dumps(v, indent=2)` model.  The fuel is
only a structural-recursion device: `dumps` supplies `jsize v`, which
bounds the nesting depth, so the `0` case is unreachable. -/
def dumpsF : Nat → Nat → JVal → String
  | 0, _, _ => ""
  | Nat.succ fuel, ind, v =>
    match v with
    | .null => "null"
    | .bool b => cond b "true" "false"
    | .num n => toString n
    | .str s => jquote s
    | .arr [] => "[]"
    | .arr xs =>
        "[\n"
          ++ String.intercalate ",\n"
              (xs.map (fun x => spaces (ind + 2) ++ dumpsF fuel (ind + 2) x))
          ++ "\n" ++ spaces ind ++ "]"
    | .obj [] => "\x7b\x7d"
    | .obj kvs =>
        "\x7b\n"
          ++ String.intercalate ",\n"
              (kvs.map (fun kv =>
                spaces (ind + 2) ++ jquote kv.1 ++ ": " ++ dumpsF fuel (ind + 2) kv.2))
          ++ "\n" ++ spaces ind ++ "\x7d"

/-- Model of `json.dumps(v, indent=2)`. -/
def dumps (v : JVal) : String := dumpsF (jsize v) 0 v

/-- A raw payload value as handed back by the warehouse: either a Python
`str` together with the outcome of `json.loads` on it (`error` = the
parse raises), or an already-decoded non-string value.  `json.loads`
itself is an external library routine, so its outcome is part of the
input. -/
inductive Raw where
  | pystr : String → Except String JVal → Raw
  | pyval : JVal → Raw

/-- The decode step `json.loads(x) if isinstance(x, str) else x`
(`streamlit_app.py` lines 92 and 128). -/
def decodeRaw : Raw → Except String JVal
  | .pystr _ (.error e) => .error e
  | .pystr _ (.ok v) => .ok v
  | .pyval v => .ok v

/-- `_extract_hit` (`streamlit_app.py` lines 62-75): build the normalized
hit record from one `results` element.  A non-mapping element, or a
truthy non-mapping `row` / score sub-object, makes the Python attribute
access `…get` raise, embedded as `error`. -/
def extract_hit (hit : JVal) : Except String JVal :=
  match hit with
  | .obj _ =>
    let row := pyOr (pyGet hit "row") (pyOr hit (.obj []))
    let scores := pyOr (pyGet hit "@scores") (pyOr (pyGet hit "scores") (.obj []))
    match row, scores with
    | .obj _, .obj _ =>
        .ok (.obj
          [("DOC_ID", pyGet row "DOC_ID"),
           ("FILENAME", pyGet row "FILENAME"),
           ("RELATIVE_PATH", pyGet row "RELATIVE_PATH"),
           ("PERSON", pyGet row "PERSON"),
           ("DOC_TYPE", pyGet row "DOC_TYPE"),
           ("DOC_DATE", pyGet row "DOC_DATE"),
           ("score_sem", pyGet scores "cosine_similarity"),
           ("score_text", pyGet scores "text_match")])
    | _, _ => .error "AttributeError: get on non-mapping"
  | _ => .error "AttributeError: get on non-mapping"

/-- The comprehension `[_extract_hit(h) for h in results]`: elements are
normalized left to right and the first raised exception aborts the whole
call. -/
def mapHits : List JVal → Except String (List JVal)
  | [] => .ok []
  | h :: t =>
    match extract_hit h with
    | .error e => .error e
    | .ok r =>
      match mapHits t with
      | .error e => .error e
      | .ok rs => .ok (r :: rs)

/-- Outcome of the `SEARCH_PREVIEW` query inside `run_search`: either no
rows came back, or the first row's `RESULT` value. -/
inductive SearchCall where
  | noRows : SearchCall
  | row : Raw → SearchCall

/-- `run_search` (`streamlit_app.py` lines 77-94) after the external SQL
call: decode the payload, take `(data or {}).get("results") or []`, and
normalize each element.  A truthy non-mapping decoded value or a truthy
non-sequence `results` value makes the Python code raise (attribute
access or elementwise `get` during iteration). -/
def run_search (call : SearchCall) : Except String (List JVal) :=
  match call with
  | .noRows => .ok []
  | .row raw =>
    match decodeRaw raw with
    | .error e => .error e
    | .ok data =>
      match pyOr data (.obj []) with
      | .obj kvs =>
        match pyOr ((lookupKV kvs "results").getD .null) (.arr []) with
        | .arr hs => mapHits hs
        | _ => .error "AttributeError: iteration over non-sequence results"
      | _ => .error "AttributeError: get on non-mapping payload"

/-- Outcome of the `EXECUTE_AGENT` query inside `agent_answer`: the SQL
call raised (caught by the surrounding `try`), returned no rows, or
returned a first-row `R` value. -/
inductive AgentCall where
  | fail : String → AgentCall
  | noResult : AgentCall
  | result : Raw → AgentCall

/-- The extraction rules of `agent_answer` on a decoded payload
(`streamlit_app.py` lines 129-138): the `message.content` rule, then the
backward scan of `data.get("messages") or data.get("output") or []`,
then the `json.dumps(data, indent=2)` fallback.  Total: no step here can
raise. -/
def agent_extract (data : JVal) : JVal :=
  match data with
  | .obj _ =>
    let msg := pyGet data "message"
    if contentHit msg then pyGet msg "content"
    else
      match pyOr (pyGet data "messages") (pyOr (pyGet data "output") (.arr [])) with
      | .arr l =>
        match l.reverse.find? contentHit with
        | some m => pyGet m "content"
        | none => .str (dumps data)
      | _ => .str (dumps data)
  | _ => .str (dumps data)

/-- The body of `agent_answer`'s `try` block (`streamlit_app.py` lines
122-138): an `error` value is a Python exception raised inside the
`try`. -/
def agent_try : AgentCall → Except String JVal
  | .fail e => .error e
  | .noResult => .ok (.str "Agent returned no result.")
  | .result r =>
    match decodeRaw r with
    | .error e => .error e
    | .ok data => .ok (agent_extract data)

/-- `agent_answer` (`streamlit_app.py` lines 117-140): the `try` body
with every raised exception converted by the `except` clause into the
textual failure message. -/
def agent_answer (c : AgentCall) : JVal :=
  match agent_try c with
  | .ok v => v
  | .error e => .str ("Agent call failed: " ++ e)

/-- A calendar date as Python's `datetime.date` (year, month, day). -/
structure PyDate where
  year : Nat
  month : Nat
  day : Nat
deriving DecidableEq, Repr

/-- Python `date` ordering (`a < b`), lexicographic on
(year, month, day). -/
def PyDate.lt (a b : PyDate) : Bool :=
  decide (a.year < b.year ∨ (a.year = b.year ∧
    (a.month < b.month ∨ (a.month = b.month ∧ a.day < b.day))))

/-- Python `date` ordering (`a <= b`). -/
def PyDate.le (a b : PyDate) : Bool :=
  decide (a.year < b.year ∨ (a.year = b.year ∧
    (a.month < b.month ∨ (a.month = b.month ∧ a.day ≤ b.day))))

/-- Length of a month, with Gregorian leap years, as validated by
Python's `datetime.date`. -/
def daysInMonth (y m : Nat) : Nat :=
  if m = 2 then
    (if y % 4 = 0 && (y % 100 != 0 || y % 400 = 0) then 29 else 28)
  else if m = 4 || m = 6 || m = 9 || m = 11 then 30 else 31

/-- Digit value of a character, `none` when not a digit. -/
def digitVal (c : Char) : Option Nat :=
  if c.isDigit then some (c.toNat - '0'.toNat) else none

/-- Model of `datetime.date.fromisoformat` on the extended calendar form
`YYYY-MM-DD` (the only form the 10-character prefixes used by the app
take): `none` models a raised `ValueError`. -/
def fromisoformat (s : String) : Option PyDate :=
  match s.toList with
  | [y1, y2, y3, y4, h1, m1, m2, h2, d1, d2] =>
    if h1 = '-' && h2 = '-' then
      match digitVal y1, digitVal y2, digitVal y3, digitVal y4,
            digitVal m1, digitVal m2, digitVal d1, digitVal d2 with
      | some a, some b, some c, some d, some e, some f, some g, some h =>
        let y := ((a * 10 + b) * 10 + c) * 10 + d
        let m := e * 10 + f
        let dy := g * 10 + h
        if 1 ≤ y ∧ 1 ≤ m ∧ m ≤ 12 ∧ 1 ≤ dy ∧ dy ≤ daysInMonth y m then
          some ⟨y, m, dy⟩
        else none
      | _, _, _, _, _, _, _, _ => none
    else none
  | _ => none

/-- `to_date` inside `filter_hits_locally` (`streamlit_app.py` lines
98-101): `None`/empty is rejected up front, then the first 10 characters
are parsed, any parse error yielding `None`. -/
def to_date : Option String → Option PyDate
  | none => none
  | some s => if s = "" then none else fromisoformat (s.take 10)

/-- A normalized search hit as consumed by `filter_hits_locally`: the
record emitted by the normalizer, each field independently optional
(`none` = the key's value is `None`/absent).  Score fields are opaque
payload values; the filter never reads them. -/
structure SearchHit where
  DOC_ID : Option String
  FILENAME : Option String
  RELATIVE_PATH : Option String
  PERSON : Option String
  DOC_TYPE : Option String
  DOC_DATE : Option String
  score_sem : Option Int
  score_text : Option Int
deriving Repr

/-- Python truthiness of an optional string criterion (`None` and `""`
are falsy). -/
def optTruthy : Option String → Bool
  | none => false
  | some s => s != ""

/-- ASCII lowercasing, modelling Python `str.lower` on the strings
exercised here. -/
def pyLower (s : String) : String := String.mk (s.data.map Char.toLower)

/-- The guard `d_from and (not dd or dd < d_from)` of
`filter_hits_locally`. -/
def lowerGuard (dd : Option PyDate) : Option PyDate → Bool
  | none => false
  | some b =>
    match dd with
    | none => true
    | some v => PyDate.lt v b

/-- The guard `d_to and (not dd or dd > d_to)` of
`filter_hits_locally`. -/
def upperGuard (dd : Option PyDate) : Option PyDate → Bool
  | none => false
  | some b =>
    match dd with
    | none => true
    | some v => PyDate.lt b v

/-- The per-row keep decision of `filter_hits_locally`'s loop: each
`continue` guard in source order. -/
def keepHit (person doc_type : Option String) (d_from d_to : Option PyDate)
    (r : SearchHit) : Bool :=
  if optTruthy person &&
      (pyLower (r.PERSON.getD "") != pyLower (person.getD "")) then false
  else if optTruthy doc_type &&
      (pyLower (r.DOC_TYPE.getD "") != pyLower (doc_type.getD "")) then false
  else if d_from.isSome || d_to.isSome then
    let dd := to_date r.DOC_DATE
    if lowerGuard dd d_from then false
    else if upperGuard dd d_to then false
    else true
  else true

/-- `filter_hits_locally` (`streamlit_app.py` lines 96-114). -/
def filter_hits_locally (rows : List SearchHit)
    (person doc_type : Option String) (d_from d_to : Option PyDate) :
    List SearchHit :=
  rows.filter (keepHit person doc_type d_from d_to)

/-- Claim C3's per-hit pass predicate exactly as the claim words it: a
criterion is active when it is non-`None`; each active criterion must
pass (case-insensitive equality for the strings, inclusive bounds on the
date parsed from the first 10 characters, absent/unparsable dates
failing whenever either bound is active). -/
def specPassClaim (person doc_type : Option String)
    (d_from d_to : Option PyDate) (r : SearchHit) : Bool :=
  (!person.isSome || (pyLower (r.PERSON.getD "") == pyLower (person.getD "")))
    && (!doc_type.isSome
        || (pyLower (r.DOC_TYPE.getD "") == pyLower (doc_type.getD "")))
    && (if d_from.isSome || d_to.isSome then
          match to_date r.DOC_DATE with
          | none => false
          | some dd =>
            (match d_from with
             | none => true
             | some b => PyDate.le b dd)
              && (match d_to with
                  | none => true
                  | some b => PyDate.le dd b)
        else true)

/-- The amended per-hit pass predicate: as claim C3, but a string
criterion is active only when non-`None` and non-empty (Python
truthiness), matching the code's `if person:` / `if doc_type:`
guards. -/
def specPassAmended (person doc_type : Option String)
    (d_from d_to : Option PyDate) (r : SearchHit) : Bool :=
  (!optTruthy person || (pyLower (r.PERSON.getD "") == pyLower (person.getD "")))
    && (!optTruthy doc_type
        || (pyLower (r.DOC_TYPE.getD "") == pyLower (doc_type.getD "")))
    && (if d_from.isSome || d_to.isSome then
          match to_date r.DOC_DATE with
          | none => false
          | some dd =>
            (match d_from with
             | none => true
             | some b => PyDate.le b dd)
              && (match d_to with
                  | none => true
                  | some b => PyDate.le dd b)
        else true)

/-- Claim C9's row selection exactly as the claim words it: the `row`
sub-object when the `row` key is present, else the element itself. -/
def claimRowOf (hit : JVal) : JVal :=
  match hit with
  | .obj kvs =>
    match lookupKV kvs "row" with
    | some v => v
    | none => hit
  | _ => hit

/-- The amended row selection: the `row` value when present and truthy,
otherwise the element itself. -/
def specRowOf (hit : JVal) : JVal :=
  if truthy (pyGet hit "row") then pyGet hit "row" else hit

/-- The amended scores selection: `@scores` when present and truthy,
else `scores` when present and truthy, else an empty mapping. -/
def specScoresOf (hit : JVal) : JVal :=
  if truthy (pyGet hit "@scores") then pyGet hit "@scores"
  else if truthy (pyGet hit "scores") then pyGet hit "scores"
  else .obj []

/-- Claim C4's candidate-sequence selection exactly as the claim words
it: the value under `messages` when that key is present, else the value
under `output`, else an empty sequence. -/
def claimMsgsSelect (data : JVal) : JVal :=
  match data with
  | .obj kvs =>
    match lookupKV kvs "messages" with
    | some v => v
    | none => (lookupKV kvs "output").getD (.arr [])
  | _ => .arr []

/-- The amended candidate-sequence selection: `messages` when present
and truthy (non-empty), else `output` when present and truthy, else an
empty sequence. -/
def amendedMsgsSelect (data : JVal) : JVal :=
  if truthy (pyGet data "messages") then pyGet data "messages"
  else if truthy (pyGet data "output") then pyGet data "output"
  else .arr []

/-- Scan a candidate sequence from the end toward the start, returning
the first (from the end) element that is a mapping with truthy
`content`, as the spec describes rule 5 of the extractor. -/
def specScanBack : List JVal → Option JVal
  | [] => none
  | m :: rest =>
    match specScanBack rest with
    | some c => some c
    | none => if contentHit m then some (pyGet m "content") else none

/-- A value passing `isObj` is a mapping. -/
theorem isObj_iff (v : JVal) : isObj v = true ↔ ∃ kvs, v = .obj kvs := by
  cases v <;> simp [isObj]

/-- `results or []` is the identity on sequences (the empty sequence is
falsy, but the default is the empty sequence again). -/
theorem pyOr_arr_nil (hs : List JVal) : pyOr (.arr hs) (.arr []) = .arr hs := by
  cases hs <;> rfl

/-- The strict and non-strict Python date orders are dual. -/
theorem pyDate_lt_eq_not_le (a b : PyDate) :
    PyDate.lt a b = !PyDate.le b a := by
  rw [PyDate.lt, PyDate.le, ← decide_not, decide_eq_decide]
  omega

/-- The `or`-chain selecting the row sub-object equals the truthiness
based selection, for mapping elements. -/
theorem row_chain_eq (kvs : List (String × JVal)) :
    pyOr (pyGet (.obj kvs) "row") (pyOr (.obj kvs) (.obj [])) =
      specRowOf (.obj kvs) := by
  rw [specRowOf, pyOr]
  cases h : truthy (pyGet (.obj kvs) "row") <;> simp [h, pyOr]
  cases h2 : truthy (.obj kvs) <;> simp [h2]
  simp [truthy, List.isEmpty_iff] at h2
  rw [h2]

/-- The `or`-chain selecting the scores sub-object equals the
truthiness based selection. -/
theorem scores_chain_eq (hit : JVal) :
    pyOr (pyGet hit "@scores") (pyOr (pyGet hit "scores") (.obj [])) =
      specScoresOf hit := rfl

/-- The `or`-chain selecting the candidate message sequence equals the
truthiness based selection. -/
theorem msgs_chain_eq (data : JVal) :
    pyOr (pyGet data "messages") (pyOr (pyGet data "output") (.arr [])) =
      amendedMsgsSelect data := rfl

/-- The sequential `continue` guards of `filter_hits_locally` compute
exactly the conjunction of per-criterion pass conditions (with truthy
string activity and inclusive date bounds). -/
theorem keepHit_eq_specPassAmended (person doc_type : Option String)
    (d_from d_to : Option PyDate) (r : SearchHit) :
    keepHit person doc_type d_from d_to r =
      specPassAmended person doc_type d_from d_to r := by
  rw [keepHit, specPassAmended]
  cases hp : optTruthy person <;> cases ht : optTruthy doc_type <;>
    cases hpe : pyLower (r.PERSON.getD "") == pyLower (person.getD "") <;>
    cases hte : pyLower (r.DOC_TYPE.getD "") == pyLower (doc_type.getD "") <;>
    simp [hpe, hte, bne] <;>
    (cases hdf : d_from <;> cases hdt : d_to <;>
      simp [lowerGuard, upperGuard] <;>
      (cases hdd : to_date r.DOC_DATE <;>
        simp [pyDate_lt_eq_not_le]))

/-- C3 (counterexample): with the criterion `person = ""` — non-`None`,
hence active as the claim defines activity — the claim demands that a
hit whose `PERSON` is `"Bob"` fail the person criterion and be dropped,
but `filter_hits_locally` keeps it: the code's `if person:` guard treats
the empty string as inactive. -/
theorem c3_cex :
    filter_hits_locally [⟨none, none, none, some "Bob", none, none, none, none⟩]
        (some "") none none none =
      [⟨none, none, none, some "Bob", none, none, none, none⟩]
    ∧ specPassClaim (some "") none none none
        ⟨none, none, none, some "Bob", none, none, none, none⟩ = false :=
  ⟨rfl, rfl⟩

/-- C3 (amended): a hit appears in the output of `filter_hits_locally`
exactly when every active criterion passes on it, where `person` and
`doc_type` are active when non-`None` and non-empty (Python truthiness)
and a date bound is active when non-`None`: the strings by
case-insensitive equality (an absent field failing an active criterion),
the date range by parsing the first 10 characters of `DOC_DATE` as an
ISO calendar date with inclusive bounds, an absent or unparsable date
failing whenever either bound is active, and the date not being checked
when both bounds are inactive. -/
theorem c3_amended (rows : List SearchHit) (person doc_type : Option String)
    (d_from d_to : Option PyDate) :
    filter_hits_locally rows person doc_type d_from d_to =
      rows.filter (specPassAmended person doc_type d_from d_to) := by
  rw [filter_hits_locally]
  exact List.filter_congr
    (fun r _ => keepHit_eq_specPassAmended person doc_type d_from d_to r)

/-- C6: the output of `filter_hits_locally` is always an order-preserving
subsequence of its input, and with every criterion inactive (all four
`None`) it returns the input list unchanged. -/
theorem c6_filter_subsequence (rows : List SearchHit)
    (person doc_type : Option String) (d_from d_to : Option PyDate) :
    (filter_hits_locally rows person doc_type d_from d_to).Sublist rows
    ∧ filter_hits_locally rows none none none none = rows :=
  ⟨List.filter_sublist rows, List.filter_eq_self.mpr (fun _ _ => rfl)⟩

/-- C2 (counterexample): a raw string payload on which JSON parsing
fails does not yield zero hits — `run_search` has no exception handler
and the decode error propagates to its caller. -/
theorem c2_cex :
    run_search (.row (.pystr "oops"
        (.error "Expecting value: line 1 column 1 (char 0)"))) =
      .error "Expecting value: line 1 column 1 (char 0)"
    ∧ isOkE (run_search (.row (.pystr "oops"
        (.error "Expecting value: line 1 column 1 (char 0)")))) = false :=
  ⟨rfl, rfl⟩

/-- C2 (amended): for every raw search payload that is a string failing
to parse as JSON, `run_search` raises the decode error to its caller
(the caller in the search tab wraps the call in its own handler and
reports a failed search). -/
theorem c2_amended (s e : String) :
    run_search (.row (.pystr s (.error e))) = .error e := rfl

/-- C5 (counterexample): when the agent payload is a string that fails
to decode as JSON, the extractor does not fall through to the indented
serialization fallback: the decode exception is caught by the
function's `except` clause, which returns the textual failure message
instead. -/
theorem c5_cex :
    agent_answer (.result (.pystr "oops"
        (.error "Expecting value: line 1 column 1 (char 0)"))) =
      .str "Agent call failed: Expecting value: line 1 column 1 (char 0)"
    ∧ "Agent call failed: Expecting value: line 1 column 1 (char 0)" ≠
        dumps (JVal.str "oops") :=
  ⟨rfl, by decide⟩

/-- C5 (amended): when the agent payload is a string that fails to
decode as JSON, `agent_answer` returns the textual failure message
embedding the decode error, not the serialized fallback. -/
theorem c5_amended (s e : String) :
    agent_answer (.result (.pystr s (.error e))) =
      .str ("Agent call failed: " ++ e) := rfl

/-- Every value the extractor's rule body can produce is either a string
(fixed messages, serialization fallback) or a truthy extracted `content`
value. -/
theorem agent_extract_str_or_truthy (data : JVal) :
    isStr (agent_extract data) = true ∨ truthy (agent_extract data) = true := by
  cases data with
  | null => simp [agent_extract, isStr]
  | bool b => simp [agent_extract, isStr]
  | num n => simp [agent_extract, isStr]
  | str s => simp [agent_extract, isStr]
  | arr xs => simp [agent_extract, isStr]
  | obj kvs =>
    rw [agent_extract]
    cases hm : contentHit (pyGet (JVal.obj kvs) "message") <;> simp [hm]
    · cases hsel : pyOr (pyGet (JVal.obj kvs) "messages")
          (pyOr (pyGet (JVal.obj kvs) "output") (.arr [])) <;> simp [isStr]
      case arr l =>
        cases hf : l.reverse.find? contentHit <;> simp [isStr]
        case some m =>
          have := List.find?_some hf
          simp [contentHit] at this
          exact Or.inr this.2
    · simp [contentHit] at hm
      exact Or.inr hm.2

/-- A successful `try`-body run yields a string or a truthy extracted
content value. -/
theorem agent_try_ok_shape (c : AgentCall) (v : JVal)
    (h : agent_try c = .ok v) : isStr v = true ∨ truthy v = true := by
  cases c with
  | fail e => exact absurd h (by simp [agent_try])
  | noResult =>
    rw [agent_try] at h
    cases h
    simp [isStr]
  | result r =>
    rw [agent_try] at h
    cases hd : decodeRaw r with
    | error e => rw [hd] at h; cases h
    | ok data =>
      rw [hd] at h
      cases h
      exact agent_extract_str_or_truthy data

/-- C1 (counterexample): the extractor does not always return a string:
for the payload `{"message": {"content": 42}}` the truthy non-string
`content` value `42` is returned as-is (the Python function returns
`msg["content"]` unchecked, an `int` here, despite its `-> str`
annotation). -/
theorem c1_cex :
    agent_answer (.result (.pyval
        (.obj [("message", .obj [("content", .num 42)])]))) = .num 42
    ∧ isStr (JVal.num 42) = false :=
  ⟨rfl, rfl⟩

/-- C1 (amended): `agent_answer` never raises to its caller — every
exception raised inside its `try` body is converted into the textual
failure message, and a successful body run is returned as-is — and its
result is a string in every case except when a truthy non-string
extracted `content` value is returned unchanged. -/
theorem c1_amended (c : AgentCall) :
    ((∃ e, agent_try c = .error e
        ∧ agent_answer c = .str ("Agent call failed: " ++ e))
      ∨ agent_try c = .ok (agent_answer c))
    ∧ (isStr (agent_answer c) = true
      ∨ (truthy (agent_answer c) = true
          ∧ agent_try c = .ok (agent_answer c))) := by
  cases h : agent_try c with
  | error e =>
    have ha : agent_answer c = .str ("Agent call failed: " ++ e) := by
      rw [agent_answer, h]
    exact ⟨Or.inl ⟨e, rfl, ha⟩, Or.inl (by rw [ha]; rfl)⟩
  | ok v =>
    have ha : agent_answer c = v := by rw [agent_answer, h]
    rw [ha]
    exact ⟨Or.inr rfl,
      (agent_try_ok_shape c v h).elim Or.inl (fun ht => Or.inr ⟨ht, rfl⟩)⟩

/-- The spec's end-to-start scan equals the code's find-first over the
reversed sequence. -/
theorem specScanBack_eq (l : List JVal) :
    specScanBack l =
      (l.reverse.find? contentHit).map (fun m => pyGet m "content") := by
  induction l with
  | nil => rfl
  | cons m rest ih =>
    rw [specScanBack, ih, List.reverse_cons, List.find?_append]
    cases h : rest.reverse.find? contentHit with
    | some c => simp
    | none =>
      simp only [Option.map_none, Option.none_or]
      cases hc : contentHit m <;> simp [List.find?, hc]

/-- C4 (counterexample): with the payload
`{"messages": [], "output": [{"content": "X"}]}` the `messages` key is
present, so the claim's selection takes the (empty) `messages` sequence
and its backward scan finds nothing; the code's `or`-chain skips the
falsy empty list, takes `output`, and the extractor returns `"X"`. -/
theorem c4_cex :
    agent_answer (.result (.pyval
        (.obj [("messages", .arr []),
               ("output", .arr [.obj [("content", .str "X")]])]))) = .str "X"
    ∧ claimMsgsSelect
        (.obj [("messages", .arr []),
               ("output", .arr [.obj [("content", .str "X")]])]) = .arr []
    ∧ specScanBack [] = none :=
  ⟨rfl, rfl, rfl⟩

/-- C4 (amended): when the decoded agent payload is an object whose
`message` field is an object with truthy (non-empty) `content`, the
extractor returns that content; otherwise it takes the sequence under
`messages` if present and truthy, else `output` if present and truthy,
else an empty sequence, scans it from the end toward the start, and
returns the first element's truthy `content` (for
`messages = [{content:"A"}, {content:""}, {content:"B"}]` it returns
`"B"`). -/
theorem c4_amended :
    (∀ (kvs mkvs : List (String × JVal)),
      lookupKV kvs "message" = some (.obj mkvs) →
      truthy (pyGet (.obj mkvs) "content") = true →
      agent_answer (.result (.pyval (.obj kvs))) =
        pyGet (.obj mkvs) "content")
    ∧ (∀ (kvs : List (String × JVal)) (l : List JVal) (c : JVal),
      contentHit (pyGet (.obj kvs) "message") = false →
      amendedMsgsSelect (.obj kvs) = .arr l →
      specScanBack l = some c →
      agent_answer (.result (.pyval (.obj kvs))) = c) := by
  constructor
  · intro kvs mkvs h1 h2
    have hmsg : pyGet (JVal.obj kvs) "message" = .obj mkvs := by
      simp [pyGet, h1]
    have hhit : contentHit (pyGet (JVal.obj kvs) "message") = true := by
      rw [hmsg]
      simp [contentHit, isObj, h2]
    change agent_extract (JVal.obj kvs) = _; rw [agent_extract.eq_def]
    simp [hmsg, contentHit, isObj, h2]
  · intro kvs l c h1 h2 h3
    change agent_extract (JVal.obj kvs) = _; rw [agent_extract.eq_def]
    simp only [h1, if_false, Bool.false_eq_true]
    rw [msgs_chain_eq, h2]
    rw [specScanBack_eq] at h3
    rcases Option.map_eq_some'.mp h3 with ⟨m, hm, hc⟩
    simp only [hm, hc]

/-- Witness for `c4_amended`: the `message.content` rule on the E2E
scenario payload, and the reverse-scan rule on the spec's P6 example
sequence. -/
theorem c4_amended_witness :
    agent_answer (.result (.pyval
        (.obj [("message", .obj [("content", .str "There are 42 documents.")])])))
      = .str "There are 42 documents."
    ∧ agent_answer (.result (.pyval
        (.obj [("messages", .arr
          [.obj [("content", .str "A")], .obj [("content", .str "")],
           .obj [("content", .str "B")]])]))) = .str "B" :=
  ⟨c4_amended.1 [("message", .obj [("content", .str "There are 42 documents.")])]
      [("content", .str "There are 42 documents.")] rfl rfl,
   c4_amended.2 [("messages", .arr
        [.obj [("content", .str "A")], .obj [("content", .str "")],
         .obj [("content", .str "B")]])]
      [.obj [("content", .str "A")], .obj [("content", .str "")],
       .obj [("content", .str "B")]]
      (.str "B") rfl rfl rfl⟩

/-- When every element normalizes, the comprehension succeeds and pairs
the inputs with their records pointwise, in order. -/
theorem mapHits_ok (hs : List JVal)
    (h : ∀ x ∈ hs, ∃ r, extract_hit x = .ok r) :
    ∃ out, mapHits hs = .ok out
      ∧ List.Forall₂ (fun a b => extract_hit a = .ok b) hs out := by
  induction hs with
  | nil => exact ⟨[], rfl, List.Forall₂.nil⟩
  | cons x t ih =>
    obtain ⟨r, hr⟩ := h x (List.mem_cons_self x t)
    obtain ⟨out, hout, hfa⟩ := ih (fun y hy => h y (List.mem_cons_of_mem x hy))
    refine ⟨r :: out, ?_, List.Forall₂.cons hr hfa⟩
    rw [mapHits, hr, hout]

/-- C7 (counterexample): a `results` sequence containing the single
element `5` does not yield one hit per element — the elementwise `get`
attribute access raises and `run_search` emits nothing. -/
theorem c7_cex :
    run_search (.row (.pyval (.obj [("results", .arr [.num 5])]))) =
      .error "AttributeError: get on non-mapping"
    ∧ isOkE (run_search (.row (.pyval (.obj [("results", .arr [.num 5])]))))
        = false :=
  ⟨rfl, rfl⟩

/-- C7 (amended): for every raw payload whose `results` sequence
contains elements that each normalize successfully, `run_search` emits
exactly one record per element, in the same relative order, dropping no
element (duplicates included) and performing no re-sorting; an element
that fails to normalize makes the whole call raise instead. -/
theorem c7_amended (raw : Raw) (data : JVal) (kvs : List (String × JVal))
    (hs : List JVal)
    (h1 : decodeRaw raw = .ok data) (h2 : data = .obj kvs)
    (h3 : (lookupKV kvs "results").getD .null = .arr hs)
    (h4 : ∀ x ∈ hs, ∃ r, extract_hit x = .ok r) :
    ∃ out, run_search (.row raw) = .ok out
      ∧ List.Forall₂ (fun a b => extract_hit a = .ok b) hs out := by
  subst h2
  obtain ⟨out, hout, hfa⟩ := mapHits_ok hs h4
  refine ⟨out, ?_, hfa⟩
  rcases List.eq_nil_or_concat kvs with hk | ⟨_, _, _⟩
  · subst hk
    rw [show (lookupKV [] "results").getD .null = JVal.null from rfl] at h3
    cases h3
  · have hkv : truthy (JVal.obj kvs) = true := by
      rcases kvs with _ | ⟨a, b⟩
      · simp at *
      · simp [truthy]
    have hpy : pyOr (JVal.obj kvs) (.obj []) = .obj kvs := by
      rw [pyOr, hkv]; rfl
    simp only [run_search, h1, hpy, h3, pyOr_arr_nil, hout]

/-- Witness for `c7_amended`: a two-element `results` sequence (with a
duplicate) normalizes to exactly two records in order. -/
theorem c7_amended_witness :
    ∃ out, run_search (.row (.pyval
        (.obj [("results", .arr [.obj [("DOC_ID", .str "d1")],
                                 .obj [("DOC_ID", .str "d1")]])]))) = .ok out
      ∧ List.Forall₂ (fun a b => extract_hit a = .ok b)
          [.obj [("DOC_ID", .str "d1")], .obj [("DOC_ID", .str "d1")]] out :=
  c7_amended _ _ [("results", .arr [.obj [("DOC_ID", .str "d1")],
                                    .obj [("DOC_ID", .str "d1")]])]
    [.obj [("DOC_ID", .str "d1")], .obj [("DOC_ID", .str "d1")]]
    rfl rfl rfl
    (by
      intro x hx
      simp only [List.mem_cons, List.not_mem_nil, or_false] at hx
      rcases hx with rfl | rfl
      · exact ⟨_, rfl⟩
      · exact ⟨_, rfl⟩)

/-- C8 (counterexample): a present `results` value that is not a
sequence does not give an empty result — iterating it raises; and a
`results` sequence whose element is the non-mapping `42` makes
normalization fail rather than succeed. -/
theorem c8_cex :
    run_search (.row (.pyval (.obj [("results", .num 5)]))) =
      .error "AttributeError: iteration over non-sequence results"
    ∧ run_search (.row (.pyval (.obj [("results", .arr [.num 42])]))) =
        .error "AttributeError: get on non-mapping"
    ∧ isOkE (run_search (.row (.pyval (.obj [("results", .num 5)])))) = false :=
  ⟨rfl, rfl, rfl⟩

/-- C8 (amended): when the parsed payload's `results` value is absent or
falsy (e.g. `null`, an empty sequence, an empty string), `run_search`
returns the empty sequence without raising; and a mapping-shaped element
normalizes without failure regardless of which keys it carries, provided
its `row`, `@scores` and `scores` values, when present and truthy, are
mappings.  A truthy non-sequence `results` value or a non-mapping
element raises instead. -/
theorem c8_amended :
    (∀ (raw : Raw) (data : JVal) (kvs : List (String × JVal)),
      decodeRaw raw = .ok data → pyOr data (.obj []) = .obj kvs →
      truthy ((lookupKV kvs "results").getD .null) = false →
      run_search (.row raw) = .ok [])
    ∧ (∀ kvs : List (String × JVal),
      (truthy (pyGet (.obj kvs) "row") = true →
        isObj (pyGet (.obj kvs) "row") = true) →
      (truthy (pyGet (.obj kvs) "@scores") = true →
        isObj (pyGet (.obj kvs) "@scores") = true) →
      (truthy (pyGet (.obj kvs) "scores") = true →
        isObj (pyGet (.obj kvs) "scores") = true) →
      ∃ rec, extract_hit (.obj kvs) = .ok rec) := by
  constructor
  · intro raw data kvs h1 h2 h3
    have hres : pyOr ((lookupKV kvs "results").getD .null) (.arr []) = .arr [] := by
      rw [pyOr, h3]; rfl
    simp only [run_search, h1, h2, hres, mapHits]
  · intro kvs hrow hs1 hs2
    have hrowObj : ∃ rkvs,
        pyOr (pyGet (.obj kvs) "row") (pyOr (.obj kvs) (.obj [])) = .obj rkvs := by
      cases ht : truthy (pyGet (JVal.obj kvs) "row") with
      | true =>
        obtain ⟨rkvs, hr⟩ := (isObj_iff _).mp (hrow ht)
        exact ⟨rkvs, by rw [pyOr, ht, if_pos rfl, hr]⟩
      | false =>
        rw [pyOr, ht]
        cases hk : truthy (JVal.obj kvs) with
        | true => exact ⟨kvs, by rw [if_neg (by simp), pyOr, hk, if_pos rfl]⟩
        | false => exact ⟨[], by rw [if_neg (by simp), pyOr, hk]; rfl⟩
    have hscObj : ∃ skvs,
        pyOr (pyGet (.obj kvs) "@scores")
          (pyOr (pyGet (.obj kvs) "scores") (.obj [])) = .obj skvs := by
      cases ht : truthy (pyGet (JVal.obj kvs) "@scores") with
      | true =>
        obtain ⟨skvs, hsv⟩ := (isObj_iff _).mp (hs1 ht)
        exact ⟨skvs, by rw [pyOr, ht, if_pos rfl, hsv]⟩
      | false =>
        rw [pyOr, ht]
        cases h2 : truthy (pyGet (JVal.obj kvs) "scores") with
        | true =>
          obtain ⟨skvs, hsv⟩ := (isObj_iff _).mp (hs2 h2)
          exact ⟨skvs, by rw [if_neg (by simp), pyOr, h2, if_pos rfl, hsv]⟩
        | false => exact ⟨[], by rw [if_neg (by simp), pyOr, h2]; rfl⟩
    obtain ⟨rkvs, hr⟩ := hrowObj
    obtain ⟨skvs, hsv⟩ := hscObj
    refine ⟨.obj [("DOC_ID", pyGet (.obj rkvs) "DOC_ID"),
       ("FILENAME", pyGet (.obj rkvs) "FILENAME"),
       ("RELATIVE_PATH", pyGet (.obj rkvs) "RELATIVE_PATH"),
       ("PERSON", pyGet (.obj rkvs) "PERSON"),
       ("DOC_TYPE", pyGet (.obj rkvs) "DOC_TYPE"),
       ("DOC_DATE", pyGet (.obj rkvs) "DOC_DATE"),
       ("score_sem", pyGet (.obj skvs) "cosine_similarity"),
       ("score_text", pyGet (.obj skvs) "text_match")], ?_⟩
    rw [extract_hit.eq_def]
    simp only [hr, hsv]

/-- Witness for `c8_amended`: a payload whose `results` key is absent
yields the empty hit list, and a one-key element with no `row`,
`@scores` or `scores` normalizes successfully. -/
theorem c8_amended_witness :
    run_search (.row (.pyval (.obj [("other", .str "y")]))) = .ok []
    ∧ ∃ rec, extract_hit (.obj [("FILENAME", .str "f.pdf")]) = .ok rec :=
  ⟨c8_amended.1 (.pyval (.obj [("other", .str "y")]))
      (.obj [("other", .str "y")]) [("other", .str "y")] rfl rfl rfl,
   c8_amended.2 [("FILENAME", .str "f.pdf")]
      (by decide) (by decide) (by decide)⟩

/-- C9 (counterexample): for the element
`{"row": {}, "DOC_ID": "x"}` the `row` key is present, so the claim
reads fields from the empty `row` sub-object (giving a null `DOC_ID`),
but the code's `hit.get("row") or hit or {}` skips the falsy empty
mapping and reads from the element itself, emitting `DOC_ID = "x"`. -/
theorem c9_cex :
    extract_hit (.obj [("row", .obj []), ("DOC_ID", .str "x")]) =
      .ok (.obj [("DOC_ID", .str "x"), ("FILENAME", .null),
                 ("RELATIVE_PATH", .null), ("PERSON", .null),
                 ("DOC_TYPE", .null), ("DOC_DATE", .null),
                 ("score_sem", .null), ("score_text", .null)])
    ∧ pyGet (claimRowOf (.obj [("row", .obj []), ("DOC_ID", .str "x")]))
        "DOC_ID" = .null
    ∧ JVal.str "x" ≠ JVal.null :=
  ⟨rfl, rfl, fun h => JVal.noConfusion h⟩

/-- C9 (amended): for a mapping element, the normalizer reads fields
from the element's `row` value when that key is present with a truthy
(non-empty mapping) value and otherwise from the element itself, and
reads scores from `@scores` when present and truthy, else from `scores`
when present and truthy, else from an empty mapping — whenever those
selections are mappings. -/
theorem c9_amended (kvs : List (String × JVal))
    (hrow : isObj (specRowOf (.obj kvs)) = true)
    (hsc : isObj (specScoresOf (.obj kvs)) = true) :
    extract_hit (.obj kvs) =
      .ok (.obj
        [("DOC_ID", pyGet (specRowOf (.obj kvs)) "DOC_ID"),
         ("FILENAME", pyGet (specRowOf (.obj kvs)) "FILENAME"),
         ("RELATIVE_PATH", pyGet (specRowOf (.obj kvs)) "RELATIVE_PATH"),
         ("PERSON", pyGet (specRowOf (.obj kvs)) "PERSON"),
         ("DOC_TYPE", pyGet (specRowOf (.obj kvs)) "DOC_TYPE"),
         ("DOC_DATE", pyGet (specRowOf (.obj kvs)) "DOC_DATE"),
         ("score_sem", pyGet (specScoresOf (.obj kvs)) "cosine_similarity"),
         ("score_text", pyGet (specScoresOf (.obj kvs)) "text_match")]) := by
  obtain ⟨rkvs, hr⟩ := (isObj_iff _).mp hrow
  obtain ⟨skvs, hsv⟩ := (isObj_iff _).mp hsc
  have hrc : pyOr (pyGet (.obj kvs) "row") (pyOr (.obj kvs) (.obj [])) =
      .obj rkvs := by rw [row_chain_eq, hr]
  have hscc : pyOr (pyGet (.obj kvs) "@scores")
      (pyOr (pyGet (.obj kvs) "scores") (.obj [])) = .obj skvs := by
    rw [scores_chain_eq, hsv]
  rw [extract_hit.eq_def]
  simp only [hrc, hscc, hr, hsv]

/-- Witness for `c9_amended`: an element wrapped in a truthy `row`
mapping with a `scores` mapping. -/
theorem c9_amended_witness :
    extract_hit (.obj [("row", .obj [("PERSON", .str "Bob")]),
                       ("scores", .obj [("text_match", .num 1)])]) =
      .ok (.obj
        [("DOC_ID", pyGet (specRowOf (.obj [("row", .obj [("PERSON", .str "Bob")]),
            ("scores", .obj [("text_match", .num 1)])])) "DOC_ID"),
         ("FILENAME", pyGet (specRowOf (.obj [("row", .obj [("PERSON", .str "Bob")]),
            ("scores", .obj [("text_match", .num 1)])])) "FILENAME"),
         ("RELATIVE_PATH", pyGet (specRowOf (.obj [("row", .obj [("PERSON", .str "Bob")]),
            ("scores", .obj [("text_match", .num 1)])])) "RELATIVE_PATH"),
         ("PERSON", pyGet (specRowOf (.obj [("row", .obj [("PERSON", .str "Bob")]),
            ("scores", .obj [("text_match", .num 1)])])) "PERSON"),
         ("DOC_TYPE", pyGet (specRowOf (.obj [("row", .obj [("PERSON", .str "Bob")]),
            ("scores", .obj [("text_match", .num 1)])])) "DOC_TYPE"),
         ("DOC_DATE", pyGet (specRowOf (.obj [("row", .obj [("PERSON", .str "Bob")]),
            ("scores", .obj [("text_match", .num 1)])])) "DOC_DATE"),
         ("score_sem", pyGet (specScoresOf (.obj [("row", .obj [("PERSON", .str "Bob")]),
            ("scores", .obj [("text_match", .num 1)])])) "cosine_similarity"),
         ("score_text", pyGet (specScoresOf (.obj [("row", .obj [("PERSON", .str "Bob")]),
            ("scores", .obj [("text_match", .num 1)])])) "text_match")]) :=
  c9_amended [("row", .obj [("PERSON", .str "Bob")]),
              ("scores", .obj [("text_match", .num 1)])] rfl rfl

/-- C10: every record the normalizer emits carries exactly the eight
keys `DOC_ID`, `FILENAME`, `RELATIVE_PATH`, `PERSON`, `DOC_TYPE`,
`DOC_DATE`, `score_sem`, `score_text`, in this order and no others,
regardless of which keys the raw element carried. -/
theorem c10_record_keys (hit rec : JVal) (h : extract_hit hit = .ok rec) :
    objKeys rec = ["DOC_ID", "FILENAME", "RELATIVE_PATH", "PERSON",
                   "DOC_TYPE", "DOC_DATE", "score_sem", "score_text"] := by
  rw [extract_hit.eq_def] at h
  cases hit <;> try cases h
  case obj kvs =>
    rcases hro : pyOr (pyGet (JVal.obj kvs) "row")
        (pyOr (JVal.obj kvs) (JVal.obj [])) with _ | _ | _ | _ | _ | rkvs <;>
      rw [hro] at h <;>
      rcases hsc : pyOr (pyGet (JVal.obj kvs) "@scores")
          (pyOr (pyGet (JVal.obj kvs) "scores") (JVal.obj [])) with
          _ | _ | _ | _ | _ | skvs <;>
        rw [hsc] at h <;> cases h
    rfl

/-- Witness for `c10_record_keys`: the record of an empty mapping
element. -/
theorem c10_record_keys_witness :
    objKeys (.obj [("DOC_ID", JVal.null), ("FILENAME", JVal.null),
                   ("RELATIVE_PATH", JVal.null), ("PERSON", JVal.null),
                   ("DOC_TYPE", JVal.null), ("DOC_DATE", JVal.null),
                   ("score_sem", JVal.null), ("score_text", JVal.null)]) =
      ["DOC_ID", "FILENAME", "RELATIVE_PATH", "PERSON",
       "DOC_TYPE", "DOC_DATE", "score_sem", "score_text"] :=
  c10_record_keys (.obj [])
    (.obj [("DOC_ID", JVal.null), ("FILENAME", JVal.null),
           ("RELATIVE_PATH", JVal.null), ("PERSON", JVal.null),
           ("DOC_TYPE", JVal.null), ("DOC_DATE", JVal.null),
           ("score_sem", JVal.null), ("score_text", JVal.null)]) rfl
